import Mathlib

/-!
Verification development for the safe expression evaluator of
`Advance_Calculator.py` (class `SafeEvaluator` and the evaluation entry
point `CalcApp._evaluate_silent`).

Embedding conventions:
* Python ints and floats are modelled as exact rationals (`ℚ`); float
  rounding is abstracted away, which is the standard shallow embedding of
  the reference's real-number semantics.
* Host transcendental functions (`math.sin`, `math.log`, float `**` with a
  non-integral exponent, ...) are parameters collected in a `Host`
  structure; their domain checks (e.g. `math.sqrt` raising
  `ValueError: math domain error` on a negative argument) follow the
  documented CPython behaviour and are written out explicitly.
* A Python `complex` value can arise here only from `**` with a negative
  base and a non-integral exponent.  The program only ever inspects such a
  value with `isinstance(val, complex)`, so complex values are modelled by
  a payload-free tag `PyVal.complex`.
* Exceptions are modelled with `Except EvalErr`; each `EvalErr`
  constructor corresponds to one distinct raise site / host error kind.
-/

/-- Error kinds raised by the evaluator and by the modelled host
operations.  Each constructor corresponds to a distinct `raise` in the
source or a distinct host exception. -/
inductive EvalErr where
  /-- `ValueError("Syntax error.")` from `SafeEvaluator.eval` when
  `ast.parse` fails. -/
  | syntaxError
  /-- `ValueError("Unsupported operator.")` -/
  | unsupportedOperator
  /-- `ValueError("Unsupported unary operator.")` -/
  | unsupportedUnaryOperator
  /-- `ValueError("Only simple function calls allowed.")` -/
  | notSimpleCall
  /-- `ValueError(f"Unknown function: {name}")` -/
  | unknownFunction (name : String)
  /-- `ValueError(f"Unknown identifier: {name}")` -/
  | unknownIdentifier (name : String)
  /-- `ValueError("Only numeric constants allowed.")` -/
  | nonNumericConstant
  /-- `ValueError("Unsupported syntax.")` — the final `else` raise in
  `visit`.  Dead code in the source: every node kind without its own
  branch first reaches `isinstance(node, ast.Paren)`, which raises
  `AttributeError` because `ast.Paren` does not exist.  Kept to record
  the raise site; no evaluation produces it. -/
  | unsupportedSyntax
  /-- host `AttributeError: module 'ast' has no attribute 'Paren'`,
  raised at the `isinstance(node, ast.Paren)` test that every node kind
  without its own `visit` branch reaches (e.g. `ast.Compare`). -/
  | attributeError
  /-- `ValueError("Complex results not supported.")` from
  `CalcApp._evaluate_silent`. -/
  | complexResult
  /-- host `ValueError: math domain error` (e.g. `math.sqrt(-1)`). -/
  | domainError
  /-- host `ZeroDivisionError`. -/
  | zeroDivision
  /-- host `TypeError` (wrong argument count or argument type). -/
  | typeError
  deriving DecidableEq, Repr

/-- A Python runtime value flowing through `SafeEvaluator.visit`.
Booleans are kept distinct from numbers because in CPython `bool` is a
subclass of `int`, so `isinstance(True, (int, float))` is `True` — the
`ast.Constant` whitelist in `visit` lets booleans through.  Complex
values are a payload-free tag: the program only ever applies
`isinstance(val, complex)` to them. -/
inductive PyVal where
  | num (q : ℚ)
  | bool (b : Bool)
  | complex
  deriving DecidableEq, Repr

/-- A literal as stored in an `ast.Constant` node: a number, a boolean
(`True`/`False`), or `None`. -/
inductive PyConst where
  | num (q : ℚ)
  | bool (b : Bool)
  | none
  deriving DecidableEq, Repr

/-- Binary operator node kinds of the Python `ast` module that can occur
under `ast.BinOp`.  Only the first seven are whitelisted in
`SafeEvaluator.bin_ops`. -/
inductive BOp where
  | add | sub | mult | div | floorDiv | mod | pow
  | bitOr | bitXor | bitAnd | lshift | rshift | matMult
  deriving DecidableEq, Repr

/-- Unary operator node kinds under `ast.UnaryOp`.  Only `uadd` and
`usub` are whitelisted in `SafeEvaluator.unary_ops`. -/
inductive UOp where
  | uadd | usub | invert | notOp
  deriving DecidableEq, Repr

/-- Comparison operator kinds under `ast.Compare` (never whitelisted:
`visit` has no `Compare` branch, so such nodes fall through to the
`isinstance(node, ast.Paren)` test, which raises `AttributeError`). -/
inductive CmpOp where
  | lt | gt | le | ge | eq | ne
  deriving DecidableEq, Repr

/-- The expression AST produced by `ast.parse(expr, mode="eval")`,
restricted to the node kinds reachable from the calculator's input
language (plus `compare`, which Python parses but which crashes the fall-through of `visit`).  The
`Expression` wrapper node is dropped: `visit` immediately recurses into
its body. -/
inductive Expr where
  | const (c : PyConst)
  | binOp (op : BOp) (l r : Expr)
  | unaryOp (op : UOp) (e : Expr)
  /-- `ast.Call`: callee, positional args, keyword args. -/
  | call (callee : Expr) (args : List Expr) (kwargs : List (String × Expr))
  | name (id : String)
  /-- `ast.Compare`: a left operand and a chain of (op, comparator). -/
  | compare (l : Expr) (rest : List (CmpOp × Expr))
  deriving Repr

/-- The host math library: the transcendental functions the evaluator
delegates to (`math.sin`, ..., natural `math.log`, `math.sqrt` on its
domain, and float `**` for a positive base and non-integral exponent).
They are abstract parameters of the development; domain checks are done
by the callers below, following the documented CPython behaviour. -/
structure Host where
  sin : ℚ → ℚ
  cos : ℚ → ℚ
  tan : ℚ → ℚ
  asin : ℚ → ℚ
  acos : ℚ → ℚ
  atan : ℚ → ℚ
  log : ℚ → ℚ
  sqrt : ℚ → ℚ
  rpow : ℚ → ℚ → ℚ

/-- A concrete instantiation of `Host`, used for closed statements whose
evaluation never consults the transcendental functions. -/
def host0 : Host :=
  ⟨fun _ => 0, fun _ => 0, fun _ => 0, fun _ => 0, fun _ => 0, fun _ => 0,
   fun _ => 0, fun _ => 0, fun _ _ => 0⟩

/-- The exact rational value of the IEEE-754 double `math.pi`
(3.141592653589793). -/
def mathPi : ℚ := (884279719003555 : ℚ) / 281474976710656

/-- The exact rational value of the IEEE-754 double `math.e`
(2.718281828459045). -/
def mathE : ℚ := (6121026514868073 : ℚ) / 2251799813685248

/-! ## Preprocessor

`SafeEvaluator.eval` first rewrites the raw string:
glyphs `×→*`, `÷→/`, `^→**`, then `%→/100`, then the postfix-factorial
conversion `_replace_factorial`. -/

/-- Python `str.replace(pat, rep)` for a single-character pattern:
every occurrence of `pat` is replaced by `rep`. -/
def replaceChar (pat : Char) (rep : List Char) : List Char → List Char
  | [] => []
  | c :: rest => (if c = pat then rep else [c]) ++ replaceChar pat rep rest

/-- The chain of `str.replace` calls at the top of `SafeEvaluator.eval`:
`×→*`, `÷→/`, `^→**`, `%→/100`, applied in this order. -/
def glyphPercent (s : List Char) : List Char :=
  replaceChar '%' ['/', '1', '0', '0']
    (replaceChar '^' ['*', '*']
      (replaceChar '÷' ['/']
        (replaceChar '×' ['*'] s)))

/-- The backward scan of `_replace_factorial` looking for the `(` that
matches a just-seen `)`.  `j` is the current index plus one (`0` encodes
a finished loop, which in the source leaves `j == -1`); `depth` is the
running nesting depth.  Elements of `out` are compared whole against
`")"` and `"("`, exactly as the source compares list elements (a
previously emitted multi-character element such as `"fact("` matches
neither). -/
def scanBack (out : List String) (depth : Nat) : Nat → Int
  | 0 => -1
  | j + 1 =>
    let e := out.getD j ""
    if e = ")" then scanBack out (depth + 1) j
    else if e = "(" then
      (if depth = 1 then (j : Int) else scanBack out (depth - 1) j)
    else scanBack out depth j

/-- Insert `x` before position `n` of the list, appending when `n` is past
the end — the behaviour of Python `list.insert` for a non-negative
index. -/
def insertAt (x : String) : Nat → List String → List String
  | _, [] => [x]
  | 0, y :: ys => x :: y :: ys
  | n + 1, y :: ys => y :: insertAt x n ys

/-- Python `list.insert(j, x)` including negative indices:
`insert(j, x)` with `j < 0` inserts at `max(0, len + j)`. -/
def pyInsert (out : List String) (j : Int) (x : String) : List String :=
  if j < 0 then insertAt x ((out.length : Int) + j).toNat out
  else insertAt x j.toNat out

/-- The character class of the digit-run scan in `_replace_factorial`:
`s[j].isdigit() or s[j] == "."`. -/
def isDigitDot (c : Char) : Bool := c.isDigit || c = '.'

/-- The string `f"fact({run})"` appended when a digit run is followed by
`!`. -/
def factRun (run : List Char) : String := "fact(" ++ run.asString ++ ")"

/-- The main loop of `_replace_factorial`.  The second argument is the
unread suffix of the input (the source's `s[i:]`), the third is the
emitted output list `out` (whose elements are strings: mostly single
characters, but `"fact("` and `f"fact({run})"` are appended whole).

* `!` is emitted unchanged;
* `)` triggers the backward scan; if the next character is `!` the source
  inserts `"fact("` at the scan's index (via Python `list.insert`, index
  possibly `-1`) and appends one `")"`, consuming both `)` and `!` — note
  the original `)` itself is never emitted in this case;
* a digit starts the digit/dot run scan; when the run is followed by `!`
  the run is emitted as the single element `f"fact({run})"` and the `!`
  consumed, otherwise the run is emitted character by character;
* anything else is emitted unchanged.

The `Nat` argument is pure embedding bookkeeping: one unit of fuel per
loop iteration.  Every iteration consumes at least one input character,
so the caller's `s.length + 1` can never be exhausted and the `0` branch
is unreachable. -/
def rfLoop : Nat → List Char → List String → List String
  | 0, _, out => out
  | _ + 1, [], out => out
  | fuel + 1, c :: rest, out =>
    if c = '!' then rfLoop fuel rest (out ++ ["!"])
    else if c = ')' then
      let j := scanBack out 1 out.length
      if rest.head? = some '!' then
        rfLoop fuel rest.tail (pyInsert out j "fact(" ++ [")"])
      else rfLoop fuel rest (out ++ [")"])
    else if c.isDigit then
      match (c :: rest).dropWhile isDigitDot with
      | '!' :: rest3 =>
          rfLoop fuel rest3 (out ++ [factRun ((c :: rest).takeWhile isDigitDot)])
      | r2 =>
          rfLoop fuel r2 (out ++ (((c :: rest).takeWhile isDigitDot).map
            (fun d => String.mk [d])))
    else rfLoop fuel rest (out ++ [String.mk [c]])

/-- `"".join(out)`: flatten the emitted output list back into a string. -/
def joinOut (out : List String) : List Char := (out.map String.toList).flatten

/-- `_replace_factorial` as a whole. -/
def replaceFactorial (s : List Char) : List Char :=
  joinOut (rfLoop (s.length + 1) s [])

/-- The full preprocessing pipeline at the top of `SafeEvaluator.eval`:
glyph substitution, percent expansion, then the factorial conversion. -/
def preprocess (s : List Char) : List Char := replaceFactorial (glyphPercent s)

/-- `preprocess` packaged on `String`. -/
def preprocessStr (s : String) : String := (preprocess s.toList).asString

/-- Python whitespace as removed by `str.strip()`: the characters for
which `str.isspace()` holds — ASCII whitespace, the information
separators, NEL, NBSP and the Unicode space/line/paragraph
separators. -/
def isPySpace (c : Char) : Bool :=
  c = ' ' || c = '\t' || c = '\n' || c = '\r' || c = '\x0b' || c = '\x0c' ||
  c = '\x1c' || c = '\x1d' || c = '\x1e' || c = '\x1f' || c = '\x85' ||
  c = '\xa0' || c = '\u1680' || ('\u2000' ≤ c && c ≤ '\u200a') ||
  c = '\u2028' || c = '\u2029' || c = '\u202f' || c = '\u205f' || c = '\u3000'

/-- Python `str.strip()`: remove leading and trailing whitespace. -/
def pyStrip (l : List Char) : List Char :=
  ((l.dropWhile isPySpace).reverse.dropWhile isPySpace).reverse

/-! ## Parser

The program parses the canonical string with the host's
`ast.parse(expr, mode="eval")`.  The parser below models the CPython
expression grammar on the fragment reachable from the calculator's
canonical strings: numeric literals, names, the keyword constants
`True`/`False`/`None`, unary `+`/`-`, the binary operators
`+ - * / // % **` with Python's precedence and associativity, comparison
chains, parenthesised expressions and call syntax `name(arg, ...)`.
Constructs outside the fragment (string literals, scientific notation,
keyword arguments, tuples, lambdas, ...) are not modelled; no claim
exercises them.  Every failure is reported as `EvalErr.syntaxError`,
matching the single `except SyntaxError` handler in
`SafeEvaluator.eval`. -/

/-- Tokens of the modelled Python expression grammar. -/
inductive Tok where
  | num (q : ℚ)
  | name (s : String)
  | plus | minus | star | slash | dstar | dslash | percent
  | lparen | rparen | comma
  | lt | gt | le | ge | eqeq | neq
  deriving DecidableEq, Repr

/-- Numeric value of a digit character. -/
def digitVal (c : Char) : ℕ := c.toNat - '0'.toNat

/-- Value of a digit run read as a decimal integer. -/
def digitsVal (l : List Char) : ℕ := l.foldl (fun acc c => 10 * acc + digitVal c) 0

/-- Value of a digit run read as the fractional part after a decimal
point. -/
def fracVal (l : List Char) : ℚ := (digitsVal l : ℚ) / (10 ^ l.length : ℚ)

/-- Identifier characters (after the first). -/
def isIdentChar (c : Char) : Bool := c.isAlpha || c.isDigit || c = '_'

/-- In-line whitespace the tokenizer skips inside an expression:
narrower than the `str.strip()` set, since Unicode spaces such as NBSP
are not legal in Python source text. -/
def isTokSpace (c : Char) : Bool :=
  c = ' ' || c = '\t' || c = '\n' || c = '\r' || c = '\x0c'

/-- The tokenizer, with fuel (one unit per consumed character suffices;
callers pass the input length plus one).  A `!` not followed by `=`, a
bare `=`, and any character outside the fragment are syntax errors, as
they are for the CPython tokenizer/parser in `eval` mode. -/
def tokenize : Nat → List Char → Except EvalErr (List Tok)
  | 0, _ => .error .syntaxError
  | _, [] => .ok []
  | fuel + 1, c :: rest =>
    if isTokSpace c then tokenize fuel rest
    else if c.isDigit || c = '.' then
      let ip := (c :: rest).takeWhile Char.isDigit
      let r1 := (c :: rest).dropWhile Char.isDigit
      match r1 with
      | '.' :: r2 =>
        let fp := r2.takeWhile Char.isDigit
        let r3 := r2.dropWhile Char.isDigit
        if ip.isEmpty && fp.isEmpty then .error .syntaxError
        else do
          let toks ← tokenize fuel r3
          .ok (.num ((digitsVal ip : ℚ) + fracVal fp) :: toks)
      | _ =>
        do
          let toks ← tokenize fuel r1
          .ok (.num (digitsVal ip : ℚ) :: toks)
    else if c.isAlpha || c = '_' then
      let id := (c :: rest).takeWhile isIdentChar
      let r1 := (c :: rest).dropWhile isIdentChar
      do
        let toks ← tokenize fuel r1
        .ok (.name id.asString :: toks)
    else if c = '*' then
      match rest with
      | '*' :: r2 => do
          let toks ← tokenize fuel r2
          .ok (.dstar :: toks)
      | _ => do
          let toks ← tokenize fuel rest
          .ok (.star :: toks)
    else if c = '/' then
      match rest with
      | '/' :: r2 => do
          let toks ← tokenize fuel r2
          .ok (.dslash :: toks)
      | _ => do
          let toks ← tokenize fuel rest
          .ok (.slash :: toks)
    else if c = '<' then
      match rest with
      | '=' :: r2 => do
          let toks ← tokenize fuel r2
          .ok (.le :: toks)
      | _ => do
          let toks ← tokenize fuel rest
          .ok (.lt :: toks)
    else if c = '>' then
      match rest with
      | '=' :: r2 => do
          let toks ← tokenize fuel r2
          .ok (.ge :: toks)
      | _ => do
          let toks ← tokenize fuel rest
          .ok (.gt :: toks)
    else if c = '=' then
      match rest with
      | '=' :: r2 => do
          let toks ← tokenize fuel r2
          .ok (.eqeq :: toks)
      | _ => .error .syntaxError
    else if c = '!' then
      match rest with
      | '=' :: r2 => do
          let toks ← tokenize fuel r2
          .ok (.neq :: toks)
      | _ => .error .syntaxError
    else if c = '+' then do
      let toks ← tokenize fuel rest
      .ok (.plus :: toks)
    else if c = '-' then do
      let toks ← tokenize fuel rest
      .ok (.minus :: toks)
    else if c = '%' then do
      let toks ← tokenize fuel rest
      .ok (.percent :: toks)
    else if c = '(' then do
      let toks ← tokenize fuel rest
      .ok (.lparen :: toks)
    else if c = ')' then do
      let toks ← tokenize fuel rest
      .ok (.rparen :: toks)
    else if c = ',' then do
      let toks ← tokenize fuel rest
      .ok (.comma :: toks)
    else .error .syntaxError

/-- Map a comparison token to its `CmpOp`, if it is one. -/
def cmpOfTok : Tok → Option CmpOp
  | .lt => some .lt
  | .gt => some .gt
  | .le => some .le
  | .ge => some .ge
  | .eqeq => some .eq
  | .neq => some .ne
  | _ => none

mutual

/-- `expression` of the fragment: a comparison chain over arithmetic. -/
def parseExpr : Nat → List Tok → Except EvalErr (Expr × List Tok)
  | 0, _ => .error .syntaxError
  | fuel + 1, toks => do
    let (a, rest) ← parseArith fuel toks
    parseCompRest fuel a [] rest

/-- The `(cmpop arith)*` tail of a comparison chain. -/
def parseCompRest : Nat → Expr → List (CmpOp × Expr) → List Tok →
    Except EvalErr (Expr × List Tok)
  | 0, _, _, _ => .error .syntaxError
  | fuel + 1, a, acc, toks =>
    match toks with
    | t :: rest =>
      match cmpOfTok t with
      | some op => do
          let (b, rest2) ← parseArith fuel rest
          parseCompRest fuel a (acc ++ [(op, b)]) rest2
      | none =>
          if acc.isEmpty then .ok (a, toks) else .ok (.compare a acc, toks)
    | [] => if acc.isEmpty then .ok (a, toks) else .ok (.compare a acc, toks)

/-- Additive level: `term (('+'|'-') term)*`, left associative. -/
def parseArith : Nat → List Tok → Except EvalErr (Expr × List Tok)
  | 0, _ => .error .syntaxError
  | fuel + 1, toks => do
    let (a, rest) ← parseTerm fuel toks
    parseArithRest fuel a rest

def parseArithRest : Nat → Expr → List Tok → Except EvalErr (Expr × List Tok)
  | 0, _, _ => .error .syntaxError
  | fuel + 1, a, toks =>
    match toks with
    | .plus :: rest => do
        let (b, rest2) ← parseTerm fuel rest
        parseArithRest fuel (.binOp .add a b) rest2
    | .minus :: rest => do
        let (b, rest2) ← parseTerm fuel rest
        parseArithRest fuel (.binOp .sub a b) rest2
    | _ => .ok (a, toks)

/-- Multiplicative level: `factor (('*'|'/'|'//'|'%') factor)*`. -/
def parseTerm : Nat → List Tok → Except EvalErr (Expr × List Tok)
  | 0, _ => .error .syntaxError
  | fuel + 1, toks => do
    let (a, rest) ← parseFactor fuel toks
    parseTermRest fuel a rest

def parseTermRest : Nat → Expr → List Tok → Except EvalErr (Expr × List Tok)
  | 0, _, _ => .error .syntaxError
  | fuel + 1, a, toks =>
    match toks with
    | .star :: rest => do
        let (b, rest2) ← parseFactor fuel rest
        parseTermRest fuel (.binOp .mult a b) rest2
    | .slash :: rest => do
        let (b, rest2) ← parseFactor fuel rest
        parseTermRest fuel (.binOp .div a b) rest2
    | .dslash :: rest => do
        let (b, rest2) ← parseFactor fuel rest
        parseTermRest fuel (.binOp .floorDiv a b) rest2
    | .percent :: rest => do
        let (b, rest2) ← parseFactor fuel rest
        parseTermRest fuel (.binOp .mod a b) rest2
    | _ => .ok (a, toks)

/-- `factor: ('+'|'-') factor | power` — unary sign, binding looser than
`**` on the left (as in the CPython grammar). -/
def parseFactor : Nat → List Tok → Except EvalErr (Expr × List Tok)
  | 0, _ => .error .syntaxError
  | fuel + 1, toks =>
    match toks with
    | .plus :: rest => do
        let (a, rest2) ← parseFactor fuel rest
        .ok (.unaryOp .uadd a, rest2)
    | .minus :: rest => do
        let (a, rest2) ← parseFactor fuel rest
        .ok (.unaryOp .usub a, rest2)
    | _ => parsePower fuel toks

/-- `power: primary ['**' factor]` — right associative, with the
right-hand side back at `factor` level. -/
def parsePower : Nat → List Tok → Except EvalErr (Expr × List Tok)
  | 0, _ => .error .syntaxError
  | fuel + 1, toks => do
    let (a, rest) ← parsePrimary fuel toks
    match rest with
    | .dstar :: rest2 => do
        let (b, rest3) ← parseFactor fuel rest2
        .ok (.binOp .pow a b, rest3)
    | _ => .ok (a, rest)

/-- `primary`: an atom followed by call trailers. -/
def parsePrimary : Nat → List Tok → Except EvalErr (Expr × List Tok)
  | 0, _ => .error .syntaxError
  | fuel + 1, toks => do
    let (a, rest) ← parseAtom fuel toks
    parseTrailers fuel a rest

def parseTrailers : Nat → Expr → List Tok → Except EvalErr (Expr × List Tok)
  | 0, _, _ => .error .syntaxError
  | fuel + 1, a, toks =>
    match toks with
    | .lparen :: .rparen :: rest => parseTrailers fuel (.call a [] []) rest
    | .lparen :: rest => do
        let (args, rest2) ← parseArgs fuel [] rest
        parseTrailers fuel (.call a args []) rest2
    | _ => .ok (a, toks)

/-- Positional call arguments `expr (',' expr)*` up to the closing
parenthesis (keyword arguments are outside the modelled fragment). -/
def parseArgs : Nat → List Expr → List Tok → Except EvalErr (List Expr × List Tok)
  | 0, _, _ => .error .syntaxError
  | fuel + 1, acc, toks => do
    let (a, rest) ← parseExpr fuel toks
    match rest with
    | .comma :: rest2 => parseArgs fuel (acc ++ [a]) rest2
    | .rparen :: rest2 => .ok (acc ++ [a], rest2)
    | _ => .error .syntaxError

/-- `atom`: a literal, a name or keyword constant, or a parenthesised
expression (which yields no extra node, as in the Python AST). -/
def parseAtom : Nat → List Tok → Except EvalErr (Expr × List Tok)
  | 0, _ => .error .syntaxError
  | fuel + 1, toks =>
    match toks with
    | .num q :: rest => .ok (.const (.num q), rest)
    | .name s :: rest =>
      if s = "True" then .ok (.const (.bool true), rest)
      else if s = "False" then .ok (.const (.bool false), rest)
      else if s = "None" then .ok (.const .none, rest)
      else .ok (.name s, rest)
    | .lparen :: rest => do
        let (a, rest2) ← parseExpr fuel rest
        match rest2 with
        | .rparen :: rest3 => .ok (a, rest3)
        | _ => .error .syntaxError
    | _ => .error .syntaxError

end

/-- `ast.parse(expr, mode="eval")` on the modelled fragment: tokenize,
parse one expression, require the input to be exhausted. -/
def pyParse (s : List Char) : Except EvalErr Expr := do
  let toks ← tokenize (s.length + 1) s
  let (e, rest) ← parseExpr (8 * (toks.length + 1) + 8) toks
  if rest = [] then .ok e else .error .syntaxError

/-! ## Evaluator -/

/-- Coerce a value to a number the way CPython arithmetic does:
booleans are ints (`True == 1`, `False == 0`); complex values have no
rational image. -/
def toNum : PyVal → Option ℚ
  | .num q => some q
  | .bool b => some (if b then 1 else 0)
  | .complex => none

/-- `q ^ n` for an integer exponent, written out with `Nat` powers (the
negative case is `1 / q ^ |n|`; callers exclude `q = 0` there). -/
def zpowQ (q : ℚ) : Int → ℚ
  | .ofNat n => q ^ n
  | .negSucc n => 1 / q ^ (n + 1)

/-- Python `**` on two numbers (`operator.pow`), following CPython:
* integral exponent: exact power (`0 ** 0 == 1`; `0` to a negative power
  raises `ZeroDivisionError`);
* non-integral exponent and negative base: a `complex` result;
* non-integral exponent and zero base: `0.0` for a positive exponent,
  `ZeroDivisionError` for a negative one;
* otherwise the host float power. -/
def powNum (H : Host) (a b : ℚ) : Except EvalErr PyVal :=
  if b.den = 1 then
    if a = 0 ∧ b.num < 0 then .error .zeroDivision
    else .ok (.num (zpowQ a b.num))
  else if a < 0 then .ok .complex
  else if a = 0 then
    if b < 0 then .error .zeroDivision else .ok (.num 0)
  else .ok (.num (H.rpow a b))

/-- The whitelisted binary operators (`SafeEvaluator.bin_ops`): the map
from `ast` operator kind to numeric function.  Kinds outside the
whitelist are absent (`none`), which makes `visit` raise
`Unsupported operator.`.  On two numbers the semantics follows the host:
`/`, `//`, `%` with a zero divisor raise `ZeroDivisionError`; `%` and
`//` use floor semantics.  A complex operand propagates through
`+ - * / **` (payload untracked) and raises `TypeError` for `//` and
`%`, as in CPython. -/
def binOps (H : Host) : BOp → Option (PyVal → PyVal → Except EvalErr PyVal)
  | .add => some fun l r =>
      match toNum l, toNum r with
      | some a, some b => .ok (.num (a + b))
      | _, _ => .ok .complex
  | .sub => some fun l r =>
      match toNum l, toNum r with
      | some a, some b => .ok (.num (a - b))
      | _, _ => .ok .complex
  | .mult => some fun l r =>
      match toNum l, toNum r with
      | some a, some b => .ok (.num (a * b))
      | _, _ => .ok .complex
  | .div => some fun l r =>
      match toNum l, toNum r with
      | some a, some b =>
          if b = 0 then .error .zeroDivision else .ok (.num (a / b))
      | _, _ => .ok .complex
  | .floorDiv => some fun l r =>
      match toNum l, toNum r with
      | some a, some b =>
          if b = 0 then .error .zeroDivision else .ok (.num (⌊a / b⌋ : ℚ))
      | _, _ => .error .typeError
  | .mod => some fun l r =>
      match toNum l, toNum r with
      | some a, some b =>
          if b = 0 then .error .zeroDivision
          else .ok (.num (a - b * (⌊a / b⌋ : ℚ)))
      | _, _ => .error .typeError
  | .pow => some fun l r =>
      match toNum l, toNum r with
      | some a, some b => powNum H a b
      | _, _ => .ok .complex
  | _ => none

/-- The whitelisted unary operators (`SafeEvaluator.unary_ops`):
`operator.pos` and `operator.neg`.  `ast.Invert` and `ast.Not` are
absent, making `visit` raise `Unsupported unary operator.`. -/
def unaryOps : UOp → Option (PyVal → Except EvalErr PyVal)
  | .uadd => some fun v =>
      match toNum v with
      | some a => .ok (.num a)
      | none => .ok .complex
  | .usub => some fun v =>
      match toNum v with
      | some a => .ok (.num (-a))
      | none => .ok .complex
  | _ => none

/-- `math.radians(x)`: degrees to radians, using the float constant
`math.pi`. -/
def radiansQ (x : ℚ) : ℚ := x * mathPi / 180

/-- `math.degrees(x)`: radians to degrees. -/
def degreesQ (x : ℚ) : ℚ := x * 180 / mathPi

/-- Pull the single positional argument of a one-argument math function,
raising `TypeError` for a wrong arity, a keyword argument, or a complex
argument (the `math` module rejects complex input). -/
def arg1 (args : List PyVal) (kwargs : List (String × PyVal)) :
    Except EvalErr ℚ :=
  match kwargs, args with
  | [], [v] =>
    match toNum v with
    | some a => .ok a
    | none => .error .typeError
  | _, _ => .error .typeError

/-- The function table `SafeEvaluator.funcs`, built in `__init__` with
the deg/rad wrappers `_wrap_trig` (argument `math.radians`-converted in
degree mode) and `_wrap_atrig` (result `math.degrees`-converted in
degree mode).  Domain checks follow the documented CPython `math`
module: `sqrt`/`ln`/`log` raise `math domain error` outside their
domains, `asin`/`acos` outside `[-1, 1]`, `factorial` rejects negative
values (`ValueError`) and non-integral values (`TypeError`);
`math.log(x, 1)` raises `ZeroDivisionError` (it computes
`log(x)/log(1)`).  Two declared approximations, outside every
theorem's inputs: `abs` of a complex argument (the builtin returns the
magnitude of the complex payload, which is untracked and so not
representable in the rational embedding) and builtin `pow`'s
three-argument and keyword forms are both modelled as `TypeError`. -/
def funcs (H : Host) (deg : Bool) :
    String → Option (List PyVal → List (String × PyVal) → Except EvalErr PyVal)
  | "sin" => some fun args kwargs => do
      let x ← arg1 args kwargs
      .ok (.num (if deg then H.sin (radiansQ x) else H.sin x))
  | "cos" => some fun args kwargs => do
      let x ← arg1 args kwargs
      .ok (.num (if deg then H.cos (radiansQ x) else H.cos x))
  | "tan" => some fun args kwargs => do
      let x ← arg1 args kwargs
      .ok (.num (if deg then H.tan (radiansQ x) else H.tan x))
  | "asin" => some fun args kwargs => do
      let x ← arg1 args kwargs
      if x < -1 ∨ 1 < x then .error .domainError
      else .ok (.num (if deg then degreesQ (H.asin x) else H.asin x))
  | "acos" => some fun args kwargs => do
      let x ← arg1 args kwargs
      if x < -1 ∨ 1 < x then .error .domainError
      else .ok (.num (if deg then degreesQ (H.acos x) else H.acos x))
  | "atan" => some fun args kwargs => do
      let x ← arg1 args kwargs
      .ok (.num (if deg then degreesQ (H.atan x) else H.atan x))
  | "log" => some fun args kwargs => do
      let xb ←
        match kwargs, args with
        | [], [x] => .ok (x, PyVal.num 10)
        | [], [x, b] => .ok (x, b)
        | [("b", b)], [x] => .ok (x, b)
        | _, _ => .error .typeError
      match toNum xb.1, toNum xb.2 with
      | some x, some b =>
          if x ≤ 0 ∨ b ≤ 0 then .error .domainError
          else if b = 1 then .error .zeroDivision
          else .ok (.num (H.log x / H.log b))
      | _, _ => .error .typeError
  | "ln" => some fun args kwargs => do
      let x ← arg1 args kwargs
      if x ≤ 0 then .error .domainError else .ok (.num (H.log x))
  | "sqrt" => some fun args kwargs => do
      let x ← arg1 args kwargs
      if x < 0 then .error .domainError else .ok (.num (H.sqrt x))
  | "abs" => some fun args kwargs => do
      let x ← arg1 args kwargs
      .ok (.num |x|)
  | "floor" => some fun args kwargs => do
      let x ← arg1 args kwargs
      .ok (.num (⌊x⌋ : ℚ))
  | "ceil" => some fun args kwargs => do
      let x ← arg1 args kwargs
      .ok (.num (⌈x⌉ : ℚ))
  | "fact" => some fun args kwargs => do
      let x ← arg1 args kwargs
      if x.den ≠ 1 then .error .typeError
      else if x < 0 then .error .domainError
      else .ok (.num (Nat.factorial x.num.toNat : ℚ))
  | "pow" => some fun args kwargs =>
      match kwargs, args with
      | [], [l, r] =>
        match toNum l, toNum r with
        | some a, some b => powNum H a b
        | _, _ => .ok .complex
      | _, _ => .error .typeError
  | _ => none

/-- The constant table `SafeEvaluator.consts`: `pi` and `e` as the host
float constants. -/
def consts : String → Option ℚ
  | "pi" => some mathPi
  | "e" => some mathE
  | _ => none

mutual

/-- `SafeEvaluator.visit`, the tree walk.  Branches in source order:
numeric constants (the `ast.Num` and `ast.Constant` branches coincide on
numbers; on a boolean the `isinstance(node.value, (int, float))` test
*passes* because `bool` subclasses `int`, so the boolean is returned);
whitelisted binary and unary operators (whitelist checked before the
operands are visited); calls (callee must be a bare name, the name is
looked up in `funcs` before the arguments are visited, then positional
arguments left to right, then keyword arguments); names (constant table
first, then the variable binding).  Every other node kind falls
through to `isinstance(node, ast.Paren)`: `ast.Paren` does not exist,
so this raises `AttributeError`, and the
`raise ValueError("Unsupported syntax.")` below it is dead code. -/
def visit (H : Host) (deg : Bool) (vars : List (String × ℚ)) :
    Expr → Except EvalErr PyVal
  | .const c =>
    match c with
    | .num q => .ok (.num q)
    | .bool b => .ok (.bool b)
    | .none => .error .nonNumericConstant
  | .binOp op l r =>
    match binOps H op with
    | none => .error .unsupportedOperator
    | some f => do
        let lv ← visit H deg vars l
        let rv ← visit H deg vars r
        f lv rv
  | .unaryOp op e =>
    match unaryOps op with
    | none => .error .unsupportedUnaryOperator
    | some f => do
        let v ← visit H deg vars e
        f v
  | .call callee args kwargs =>
    match callee with
    | .name fname =>
      match funcs H deg fname with
      | none => .error (.unknownFunction fname)
      | some f => do
          let avs ← visitList H deg vars args
          let kvs ← visitKwargs H deg vars kwargs
          f avs kvs
    | _ => .error .notSimpleCall
  | .name id =>
    match consts id with
    | some v => .ok (.num v)
    | none =>
      match List.lookup id vars with
      | some v => .ok (.num v)
      | none => .error (.unknownIdentifier id)
  | .compare _ _ => .error .attributeError

/-- The argument list comprehension `[self.visit(a) for a in node.args]`. -/
def visitList (H : Host) (deg : Bool) (vars : List (String × ℚ)) :
    List Expr → Except EvalErr (List PyVal)
  | [] => .ok []
  | e :: rest => do
      let v ← visit H deg vars e
      let vs ← visitList H deg vars rest
      .ok (v :: vs)

/-- The keyword-argument comprehension
`{kw.arg: self.visit(kw.value) for kw in node.keywords}`. -/
def visitKwargs (H : Host) (deg : Bool) (vars : List (String × ℚ)) :
    List (String × Expr) → Except EvalErr (List (String × PyVal))
  | [] => .ok []
  | (k, e) :: rest => do
      let v ← visit H deg vars e
      let vs ← visitKwargs H deg vars rest
      .ok ((k, v) :: vs)

end

/-- `SafeEvaluator.eval`: preprocess, parse (`SyntaxError` becomes
`ValueError("Syntax error.")`), then visit. -/
def SafeEvaluator.eval (H : Host) (deg : Bool) (vars : List (String × ℚ))
    (expr : String) : Except EvalErr PyVal :=
  match pyParse (preprocess expr.toList) with
  | .error _ => .error .syntaxError
  | .ok e => visit H deg vars e

/-- Python `float(val)` on the values the post-check lets through
(numbers and booleans; the complex branch is unreachable because
`_evaluate_silent` raises first). -/
def toFloat : PyVal → ℚ
  | .num q => q
  | .bool b => if b then 1 else 0
  | .complex => 0

/-- `CalcApp._evaluate_silent`: strip the entry text; a blank entry
short-circuits to `0.0`; otherwise build the binding
`{"Ans": self.ans}`, evaluate, reject a complex result, and convert to
float. -/
def evaluateSilent (H : Host) (expr : String) (ans : ℚ) (deg : Bool) :
    Except EvalErr ℚ :=
  let s := pyStrip expr.toList
  if s = [] then .ok 0
  else
    match SafeEvaluator.eval H deg [("Ans", ans)] s.asString with
    | .error e => .error e
    | .ok v => if v = .complex then .error .complexResult else .ok (toFloat v)

deriving instance DecidableEq for Except

/-! ## Helper lemmas -/

theorem takeWhile_append_all (p : Char → Bool) (l1 l2 : List Char)
    (h : ∀ c ∈ l1, p c = true) :
    (l1 ++ l2).takeWhile p = l1 ++ l2.takeWhile p := by
  induction l1 with
  | nil => simp
  | cons c rest ih =>
    have hc : p c = true := h c (by simp)
    simp only [List.cons_append, List.takeWhile_cons, hc, if_true]
    rw [ih (fun d hd => h d (by simp [hd]))]

theorem dropWhile_append_all (p : Char → Bool) (l1 l2 : List Char)
    (h : ∀ c ∈ l1, p c = true) :
    (l1 ++ l2).dropWhile p = l2.dropWhile p := by
  induction l1 with
  | nil => simp
  | cons c rest ih =>
    have hc : p c = true := h c (by simp)
    simp only [List.cons_append, List.dropWhile_cons, hc, if_true]
    exact ih (fun d hd => h d (by simp [hd]))

theorem dropWhile_all_nil (p : Char → Bool) (l : List Char)
    (h : ∀ c ∈ l, p c = true) : l.dropWhile p = [] := by
  induction l with
  | nil => simp
  | cons c rest ih =>
    have hc : p c = true := h c (by simp)
    simp only [List.dropWhile_cons, hc, if_true]
    exact ih (fun d hd => h d (by simp [hd]))

theorem replaceChar_append (pat : Char) (rep : List Char) (l1 l2 : List Char) :
    replaceChar pat rep (l1 ++ l2) =
      replaceChar pat rep l1 ++ replaceChar pat rep l2 := by
  induction l1 with
  | nil => simp [replaceChar]
  | cons c rest ih => simp [replaceChar, ih]

/-- The per-character image of the four sequential `str.replace` calls:
`×→*`, `÷→/`, `^→**`, `%→/100`, all other characters unchanged. -/
def charSubst (c : Char) : List Char :=
  if c = '×' then ['*']
  else if c = '÷' then ['/']
  else if c = '^' then ['*', '*']
  else if c = '%' then ['/', '1', '0', '0'] else [c]

/-- The sequential replacements act character for character: none of the
replacement strings contains a later pattern character, so the chain
equals a single simultaneous per-character substitution. -/
theorem glyphPercent_eq_charSubst (s : List Char) :
    glyphPercent s = (s.map charSubst).flatten := by
  induction s with
  | nil => simp [glyphPercent, replaceChar]
  | cons c rest ih =>
    have hstep : ∀ t : List Char,
        glyphPercent (c :: t) = charSubst c ++ glyphPercent t := by
      intro t
      show replaceChar '%' _ (replaceChar '^' _ (replaceChar '÷' _
        (replaceChar '×' _ (c :: t)))) = _
      by_cases h1 : c = '×'
      · subst h1
        simp [replaceChar, charSubst, glyphPercent, replaceChar_append]
      · by_cases h2 : c = '÷'
        · subst h2
          simp [replaceChar, charSubst, glyphPercent, replaceChar_append]
        · by_cases h3 : c = '^'
          · subst h3
            simp [replaceChar, charSubst, glyphPercent, replaceChar_append]
          · by_cases h4 : c = '%'
            · subst h4
              simp [replaceChar, charSubst, glyphPercent, replaceChar_append]
            · simp [replaceChar, charSubst, glyphPercent, replaceChar_append,
                h1, h2, h3, h4]
    rw [hstep rest, ih]
    simp

/-! ## Claims -/

/-- Claim C1 (code bug): the spec (and the source's own comment,
`# Convert "5!" -> "fact(5)" and "(2+3)!" -> "fact((2+3))"`) say the
span from the matching `(` through the `)` is wrapped as `fact(...)`,
so that `(2+3)!` becomes `fact((2+3))` and evaluates to `120`.  The
code, however, never emits the original `)` in the wrap case: it
produces the unbalanced string `fact((2+3)` (and `fact((2+(1*3))` for
the nested example), so evaluation fails with a syntax error instead of
returning `120`. -/
theorem c1_factorial_paren_dropped :
    preprocessStr "(2+3)!" = "fact((2+3)" ∧
    preprocessStr "(2+3)!" ≠ "fact((2+3))" ∧
    preprocessStr "(2+(1*3))!" = "fact((2+(1*3))" ∧
    preprocessStr "(2+(1*3))!" ≠ "fact((2+(1*3)))" ∧
    evaluateSilent host0 "(2+3)!" 0 false = .error .syntaxError ∧
    evaluateSilent host0 "(2+3)!" 0 false ≠ .ok 120 := by decide

/-- Claim C4 (code bug): the claim says any construct outside the
whitelisted grammar — including boolean literals and comparisons — is
reported uniformly as a syntax error.  In CPython `bool` is a subclass
of `int`, so `isinstance(True, (int, float))` holds and
`evaluate("True")` returns `1.0` instead of failing; and `"1 < 2"`
parses fine (to an `ast.Compare` node) whose `visit` fall-through then
raises `AttributeError` at the nonexistent `ast.Paren` — in neither
case the uniform `Syntax error.` the claim states. -/
theorem c4_true_not_rejected :
    evaluateSilent host0 "True" 0 false = .ok 1 ∧
    evaluateSilent host0 "1 < 2" 0 false = .error .attributeError ∧
    evaluateSilent host0 "1 < 2" 0 false ≠ .error .syntaxError := by decide

/-- Claim C5 (confirmed): a digit-or-decimal-point run immediately
followed by `!` is rewritten to `fact(<run>)` — stated in general for
the scanning loop (any run starting with a digit whose characters are
digits or dots, followed by `!`, in any context), plus the concrete
examples: `evaluate("5!") = 120` and `evaluate("0!") = 1`. -/
theorem c5_digit_run_factorial :
    (∀ (fuel : Nat) (d : Char) (ds rest : List Char) (out : List String),
        d.isDigit = true → (∀ c ∈ ds, isDigitDot c = true) →
        rfLoop (fuel + 1) (d :: ds ++ '!' :: rest) out =
          rfLoop fuel rest (out ++ [factRun (d :: ds)])) ∧
    preprocessStr "5!" = "fact(5)" ∧
    preprocessStr "0!" = "fact(0)" ∧
    (∀ (H : Host) (a : ℚ) (dm : Bool), evaluateSilent H "5!" a dm = .ok 120) ∧
    (∀ (H : Host) (a : ℚ) (dm : Bool), evaluateSilent H "0!" a dm = .ok 1) := by
  refine ⟨?_, by decide, by decide, fun _ _ _ => rfl, fun _ _ _ => rfl⟩
  intro fuel d ds rest out hd hds
  have hne1 : d ≠ '!' := by
    rintro rfl
    exact absurd hd (by decide)
  have hne2 : d ≠ ')' := by
    rintro rfl
    exact absurd hd (by decide)
  have hdd : isDigitDot d = true := by simp [isDigitDot, hd]
  have hdrop : (d :: (ds ++ '!' :: rest)).dropWhile isDigitDot = '!' :: rest := by
    rw [List.dropWhile_cons, if_pos hdd, dropWhile_append_all _ _ _ hds]
    rw [List.dropWhile_cons]
    simp [isDigitDot]
  have htake : (d :: (ds ++ '!' :: rest)).takeWhile isDigitDot = d :: ds := by
    rw [List.takeWhile_cons, if_pos hdd, takeWhile_append_all _ _ _ hds]
    rw [List.takeWhile_cons]
    simp [isDigitDot]
  show rfLoop (fuel + 1) (d :: (ds ++ '!' :: rest)) out = _
  simp only [rfLoop, if_neg hne1, if_neg hne2, hd, if_true, hdrop, htake]

/-- Witness for the general conjunct of `c5_digit_run_factorial`,
instantiated at the run `5` in the empty context. -/
theorem c5_digit_run_factorial_witness :
    rfLoop 1 ('5' :: [] ++ '!' :: []) [] = rfLoop 0 [] ([] ++ [factRun ['5']]) :=
  c5_digit_run_factorial.1 0 '5' [] [] [] (by decide) (by decide)

/-- Claim C6 (confirmed): glyph substitution `×→*`, `÷→/`, `^→**` and
percent expansion `%→/100` are purely textual, character-for-character
substitutions (the sequential `str.replace` chain equals one
simultaneous per-character substitution), so `evaluate("2^10") = 1024`
and `evaluate("200 + 10%") = 200.1` (not `220`). -/
theorem c6_glyph_percent_textual :
    (∀ s : List Char, glyphPercent s = (s.map charSubst).flatten) ∧
    preprocessStr "2^10" = "2**10" ∧
    preprocessStr "200 + 10%" = "200 + 10/100" ∧
    (∀ (H : Host) (a : ℚ) (dm : Bool), evaluateSilent H "2^10" a dm = .ok 1024) ∧
    (∀ (H : Host) (a : ℚ) (dm : Bool),
        evaluateSilent H "200 + 10%" a dm = .ok (2001 / 10)) :=
  ⟨glyphPercent_eq_charSubst, by decide, by decide,
   fun _ _ _ => rfl, fun _ _ _ => by with_unfolding_all rfl⟩

/-- Claim C2 counterexample: a `!` whose preceding `)` has no matching
`(` in the emitted text is *not* passed through unchanged.  For the
input `)!` the backward scan runs off the start (`j = -1`), Python
`list.insert(-1, "fact(")` still inserts, and the output is `fact()`,
which contains no `!` and fails with an arity `TypeError`, not a syntax
error.  Moreover a stray `!` followed by `=` parses as a comparison
whose `visit` fall-through raises the `ast.Paren` `AttributeError`, not
a syntax error. -/
theorem c2_unmatched_bang_counterexample :
    preprocessStr ")!" = "fact()" ∧
    '!' ∉ preprocess ")!".toList ∧
    evaluateSilent host0 ")!" 0 false = .error .typeError ∧
    evaluateSilent host0 ")!" 0 false ≠ .error .syntaxError ∧
    evaluateSilent host0 "a!=b" 0 false = .error .attributeError := by
  refine ⟨by decide, by decide, by decide, by decide, by decide⟩

/-- Claim C2 as amended: when the scan reaches a `!` directly (i.e. the
`!` was not consumed by a preceding digit run or `)`), the `!` is
emitted unchanged, and a stray `!` in the canonical string that is not
part of `!=` is a syntax error (e.g. `!5`).  But a `!` preceded by a
`)` without a matching `(` is still wrapped — `)!` preprocesses to
`fact()` and fails with a `TypeError` — and a stray `!` followed by `=`
parses as a comparison whose `visit` fall-through raises the
`ast.Paren` `AttributeError`. -/
theorem c2_unmatched_bang_amended :
    (∀ (fuel : Nat) (rest : List Char) (out : List String),
        rfLoop (fuel + 1) ('!' :: rest) out = rfLoop fuel rest (out ++ ["!"])) ∧
    preprocessStr "!5" = "!5" ∧
    evaluateSilent host0 "!5" 0 false = .error .syntaxError ∧
    preprocessStr ")!" = "fact()" ∧
    evaluateSilent host0 ")!" 0 false = .error .typeError ∧
    evaluateSilent host0 "a!=b" 0 false = .error .attributeError :=
  ⟨fun _ _ _ => rfl, by decide, by decide, by decide, by decide, by decide⟩

/-- Claim C3 counterexample: `evaluate("sqrt(-1)")` does *not* fail with
`ComplexResultUnsupported`.  `math.sqrt` raises
`ValueError: math domain error` on a negative argument, so the error
kind is a domain error and the complex post-check is never reached. -/
theorem c3_sqrt_counterexample :
    evaluateSilent host0 "sqrt(-1)" 0 false = .error .domainError ∧
    evaluateSilent host0 "sqrt(-1)" 0 false ≠ .error .complexResult := by decide

/-- Claim C3 as amended: `sqrt(-1)` fails with a math domain error (the
host `sqrt` rejects negatives before any complex value can arise); the
post-check itself is real: whenever `SafeEvaluator.eval` produces a
complex value (as `(-1)**0.5` does), `_evaluate_silent` fails with
`ComplexResultUnsupported` rather than returning the value. -/
theorem c3_complex_postcheck : ∀ (H : Host) (e : String) (a : ℚ) (dm : Bool),
    SafeEvaluator.eval H dm [("Ans", a)] (pyStrip e.toList).asString = .ok .complex →
    evaluateSilent H e a dm = .error .complexResult := by
  intro H e a dm h
  by_cases hs : pyStrip e.toList = []
  · rw [hs] at h
    have h0 : SafeEvaluator.eval H dm [("Ans", a)] (([] : List Char).asString) =
        .error .syntaxError := rfl
    rw [h0] at h
    exact absurd h (by simp)
  · simp only [evaluateSilent, if_neg hs]
    rw [h]
    rfl

/-- Witness for `c3_complex_postcheck`: `(-1)**0.5` evaluates to a
complex value in CPython, and the call fails with
`ComplexResultUnsupported`. -/
theorem c3_complex_postcheck_witness :
    evaluateSilent host0 "(-1)**0.5" 0 false = .error .complexResult :=
  c3_complex_postcheck host0 "(-1)**0.5" 0 false (by with_unfolding_all rfl)

/-- Claim C7 (confirmed): `visit` on a `Name` node consults the constant
table first and the variable binding second — a binding for `pi` is
shadowed by the constant `π`; a name that is in neither table raises
`Unknown identifier`. -/
theorem c7_identifier_lookup_order :
    (∀ (H : Host) (dm : Bool) (vars : List (String × ℚ)) (v : ℚ),
        List.lookup "pi" vars = some v →
        visit H dm vars (.name "pi") = .ok (.num mathPi)) ∧
    (∀ (H : Host) (dm : Bool) (vars : List (String × ℚ)) (n : String) (c : ℚ),
        consts n = some c → visit H dm vars (.name n) = .ok (.num c)) ∧
    (∀ (H : Host) (dm : Bool) (vars : List (String × ℚ)) (n : String) (v : ℚ),
        consts n = none → List.lookup n vars = some v →
        visit H dm vars (.name n) = .ok (.num v)) ∧
    (∀ (H : Host) (dm : Bool) (vars : List (String × ℚ)) (n : String),
        consts n = none → List.lookup n vars = none →
        visit H dm vars (.name n) = .error (.unknownIdentifier n)) := by
  refine ⟨fun _ _ _ _ _ => rfl, ?_, ?_, ?_⟩
  · intro H dm vars n c h
    simp only [visit, h]
  · intro H dm vars n v h1 h2
    simp only [visit, h1, h2]
  · intro H dm vars n h1 h2
    simp only [visit, h1, h2]

/-- Witness for `c7_identifier_lookup_order`: with the binding
`{"pi": 3}` the identifier `pi` still evaluates to the float constant
`math.pi`; a bound plain name evaluates to its bound value; an unbound
name errors. -/
theorem c7_identifier_lookup_order_witness :
    visit host0 false [("pi", 3)] (.name "pi") = .ok (.num mathPi) ∧
    visit host0 false [("x", 7)] (.name "x") = .ok (.num 7) ∧
    visit host0 false [] (.name "bar") = .error (.unknownIdentifier "bar") :=
  ⟨c7_identifier_lookup_order.1 host0 false [("pi", 3)] 3 rfl,
   c7_identifier_lookup_order.2.2.1 host0 false [("x", 7)] "x" 7 rfl rfl,
   c7_identifier_lookup_order.2.2.2 host0 false [] "bar" rfl rfl⟩

/-- `visit` on an `asin` call with a numeric literal reduces to the host
domain check followed by the mode-dependent `math.degrees` wrap. -/
theorem visit_asin_unfold (H : Host) (dm : Bool) (vars : List (String × ℚ))
    (x : ℚ) :
    visit H dm vars (.call (.name "asin") [.const (.num x)] []) =
      if x < -1 ∨ 1 < x then .error .domainError
      else .ok (.num (if dm then degreesQ (H.asin x) else H.asin x)) := rfl

/-- `visit` on an `acos` call with a numeric literal reduces to the host
domain check followed by the mode-dependent `math.degrees` wrap. -/
theorem visit_acos_unfold (H : Host) (dm : Bool) (vars : List (String × ℚ))
    (x : ℚ) :
    visit H dm vars (.call (.name "acos") [.const (.num x)] []) =
      if x < -1 ∨ 1 < x then .error .domainError
      else .ok (.num (if dm then degreesQ (H.acos x) else H.acos x)) := rfl

/-- Claim C8 (confirmed): in degree mode the forward trig functions
convert their argument with `math.radians` before the host function and
the inverse trig functions convert their result with `math.degrees`; in
radian mode no conversion happens.  Consequently `sin(30)` in degree
mode and `sin(pi/6)` in radian mode both evaluate to the host sine of
`math.pi / 6` (which is approximately `0.5` for the real sine). -/
theorem c8_trig_angle_mode :
    (∀ (H : Host) (vars : List (String × ℚ)) (x : ℚ),
        visit H true vars (.call (.name "sin") [.const (.num x)] []) =
          .ok (.num (H.sin (radiansQ x))) ∧
        visit H true vars (.call (.name "cos") [.const (.num x)] []) =
          .ok (.num (H.cos (radiansQ x))) ∧
        visit H true vars (.call (.name "tan") [.const (.num x)] []) =
          .ok (.num (H.tan (radiansQ x))) ∧
        visit H false vars (.call (.name "sin") [.const (.num x)] []) =
          .ok (.num (H.sin x)) ∧
        visit H false vars (.call (.name "cos") [.const (.num x)] []) =
          .ok (.num (H.cos x)) ∧
        visit H false vars (.call (.name "tan") [.const (.num x)] []) =
          .ok (.num (H.tan x))) ∧
    (∀ (H : Host) (vars : List (String × ℚ)) (x : ℚ),
        -1 ≤ x → x ≤ 1 →
        visit H true vars (.call (.name "asin") [.const (.num x)] []) =
          .ok (.num (degreesQ (H.asin x))) ∧
        visit H true vars (.call (.name "acos") [.const (.num x)] []) =
          .ok (.num (degreesQ (H.acos x))) ∧
        visit H false vars (.call (.name "asin") [.const (.num x)] []) =
          .ok (.num (H.asin x)) ∧
        visit H false vars (.call (.name "acos") [.const (.num x)] []) =
          .ok (.num (H.acos x))) ∧
    (∀ (H : Host) (vars : List (String × ℚ)) (x : ℚ),
        visit H true vars (.call (.name "atan") [.const (.num x)] []) =
          .ok (.num (degreesQ (H.atan x))) ∧
        visit H false vars (.call (.name "atan") [.const (.num x)] []) =
          .ok (.num (H.atan x))) ∧
    (∀ (H : Host) (a : ℚ),
        evaluateSilent H "sin(30)" a true = .ok (H.sin (mathPi / 6)) ∧
        evaluateSilent H "sin(pi/6)" a false = .ok (H.sin (mathPi / 6))) := by
  refine ⟨fun _ _ _ => ⟨rfl, rfl, rfl, rfl, rfl, rfl⟩, ?_,
    fun _ _ _ => ⟨rfl, rfl⟩,
    fun _ _ => ⟨by with_unfolding_all rfl, by with_unfolding_all rfl⟩⟩
  intro H vars x h1 h2
  have hno : ¬(x < -1 ∨ 1 < x) := by
    push_neg
    exact ⟨h1, h2⟩
  refine ⟨?_, ?_, ?_, ?_⟩
  · rw [visit_asin_unfold, if_neg hno]
    rfl
  · rw [visit_acos_unfold, if_neg hno]
    rfl
  · rw [visit_asin_unfold, if_neg hno]
    rfl
  · rw [visit_acos_unfold, if_neg hno]
    rfl

/-- Witness for the inverse-trig conjunct of `c8_trig_angle_mode`, at
`x = 0` (inside the `[-1, 1]` domain). -/
theorem c8_trig_angle_mode_witness :
    visit host0 true [] (.call (.name "asin") [.const (.num 0)] []) =
      .ok (.num (degreesQ (host0.asin 0))) :=
  (c8_trig_angle_mode.2.1 host0 [] 0 (by decide) (by decide)).1

/-- Claim C9 (confirmed): evaluation is a pure function of the
expression string, the `Ans` binding and the angle-mode flag — two
calls with identical inputs give identical outputs.  In the embedding
the evaluator threads no state at all: `_evaluate_silent` builds a
fresh `SafeEvaluator` from exactly these inputs on every call. -/
theorem c9_deterministic : ∀ (H : Host) (e1 e2 : String) (a1 a2 : ℚ)
    (d1 d2 : Bool), e1 = e2 → a1 = a2 → d1 = d2 →
    evaluateSilent H e1 a1 d1 = evaluateSilent H e2 a2 d2 := by
  intro H e1 e2 a1 a2 d1 d2 h1 h2 h3
  subst h1
  subst h2
  subst h3
  rfl

/-- Witness for `c9_deterministic` at a concrete repeated call. -/
theorem c9_deterministic_witness :
    evaluateSilent host0 "1+1" 0 false = evaluateSilent host0 "1+1" 0 false :=
  c9_deterministic host0 "1+1" "1+1" 0 0 false false rfl rfl rfl

/-- Claim C10 (confirmed): a blank entry (empty or all-whitespace) makes
`_evaluate_silent` return `0.0` before any preprocessing or parsing —
blank input is not a syntax error. -/
theorem c10_blank_returns_zero : ∀ (H : Host) (s : String) (a : ℚ) (dm : Bool),
    (∀ c ∈ s.toList, isPySpace c = true) → evaluateSilent H s a dm = .ok 0 := by
  intro H s a dm h
  have h2 : ∀ c ∈ s.data, isPySpace c = true := h
  have hstrip : pyStrip s.data = [] := by
    unfold pyStrip
    rw [dropWhile_all_nil _ _ h2]
    simp
  simp [evaluateSilent, hstrip]

/-- Witness for `c10_blank_returns_zero` on a whitespace-only entry. -/
theorem c10_blank_returns_zero_witness :
    evaluateSilent host0 "  " 0 false = .ok 0 :=
  c10_blank_returns_zero host0 "  " 0 false (by decide)
